import Mathlib

/-!
Shallow embedding of the order/payment core of the `nextecommercebackend`
repository (Django e-commerce backend), covering:

* `cart/models.py` — `Coupon.is_valid`, `Coupon.apply_coupon`, `Cart`,
  `Order`, `OrderItem`, `Delivery`, `Payment`;
* `cart/views.py` — `CouponView.get`, `CartView.post`,
  `CheckoutAPIView.post`, `DeliveryView.post`, `OrderSerializer.create`
  (via `cart/serializers.py`);
* `cart/stripe_views.py` — `ConfirmPaymentView.post`, `stripe_webhook`,
  `_handle_payment_succeeded`, `_handle_payment_failed`.

Database tables are modelled as Lean lists of records; a Django
`objects.get` / `filter(...).first()` is `List.find?`, a `save()` on a
fetched row is a keyed `List.map` update, a cascade delete is a
`List.filter`.  Dates are day numbers (`Nat`); calls to the external
payment processor are modelled by passing the processor's response
(`RemoteIntent`) as an argument, since the network call itself is outside
the program.  Python `None` is `Option.none`; a Python exception that a
view does not catch is an explicit error constructor.
-/

namespace NextEcom

/-! ## Coupon engine (`cart/models.py` lines 79-115, `cart/views.py` `CouponView`) -/

/-- A Python runtime exception relevant to the modelled code. -/
inductive PyExc where
  /-- Python `TypeError`, e.g. comparing `None < date`. -/
  | typeError
  deriving Repr, DecidableEq

/-- The `Coupon` model row.  `expiry_date` is nullable (`null=True, blank=True`),
modelled as an `Option` day number; `amount`/`percentage` are modelled as
integers (their numeric type plays no role in the claims). -/
structure Coupon where
  code : String
  amount : Int
  percentage : Int
  active : Bool
  expiry_date : Option Nat
  usage_limit : Nat
  used_count : Nat
  deriving Repr, DecidableEq

/-- Method `Coupon.is_valid` (models.py lines 90-104): returns `False` when
`expiry_date < today`, then `False` when `used_count >= usage_limit`,
else `True`.  When `expiry_date` is `None` the Python comparison
`None < date` raises `TypeError`, modelled as `.error .typeError`.
The `active` flag is never consulted. -/
def couponIsValid (c : Coupon) (today : Nat) : Except PyExc Bool :=
  match c.expiry_date with
  | none => .error .typeError
  | some d =>
    if d < today then .ok false
    else if c.usage_limit ≤ c.used_count then .ok false
    else .ok true

/-- Method `Coupon.apply_coupon` (models.py lines 110-115): if `is_valid()` then
increment `used_count`, save, return `True`; else return `False`.
An exception from `is_valid` propagates before any write. -/
def applyCoupon (c : Coupon) (today : Nat) : Except PyExc (Bool × Coupon) :=
  match couponIsValid c today with
  | .error e => .error e
  | .ok true => .ok (true, { c with used_count := c.used_count + 1 })
  | .ok false => .ok (false, c)

/-- Outcome of `CouponView.get` (views.py lines 457-467). -/
inductive CouponViewResult where
  /-- HTTP 200 with status Success and the coupon amount and percentage. -/
  | success (amount : Int) (percentage : Int)
  /-- HTTP 200 with status Failed: the coupon has already been used. -/
  | alreadyUsed
  /-- HTTP 400 with status Failed: the coupon is not valid. -/
  | notValid
  /-- No `code` query parameter: view returns `None` (framework error). -/
  | noCode
  /-- An uncaught Python exception escapes the view (HTTP 500). -/
  | serverError (e : PyExc)
  deriving Repr, DecidableEq

/-- A Django `row.save()` after fetching by a key: replace every row
matching the key by its updated version (keys are unique in the stored
tables, so at most one row actually changes). -/
def saveKeyed {A : Type} (key : A → Bool) (f : A → A) (l : List A) : List A :=
  l.map (fun x => if key x then f x else x)

/-- Update every coupon row matching `code` (the save of the fetched row;
`code` is the lookup key of `CouponView`). -/
def saveCouponByCode (coupons : List Coupon) (code : String)
    (f : Coupon → Coupon) : List Coupon :=
  saveKeyed (fun c => c.code == code) f coupons

/-- View `CouponView.get` (views.py lines 457-467): fetch the first coupon with
the given code; absent code parameter falls through (returns `None`);
missing coupon → 400; otherwise `apply_coupon` decides between the
success response (and the `used_count` increment is persisted) and the
already-used response.  An exception from `apply_coupon` is uncaught. -/
def couponViewGet (coupons : List Coupon) (code : Option String) (today : Nat) :
    CouponViewResult × List Coupon :=
  match code with
  | none => (.noCode, coupons)
  | some cd =>
    match coupons.find? (fun c => c.code == cd) with
    | none => (.notValid, coupons)
    | some c =>
      match applyCoupon c today with
      | .error e => (.serverError e, coupons)
      | .ok (true, _) =>
        (.success c.amount c.percentage,
          saveCouponByCode coupons cd (fun x => { x with used_count := x.used_count + 1 }))
      | .ok (false, _) => (.alreadyUsed, coupons)

/-! ## Cart manager (`cart/models.py` `Cart`, `cart/views.py` `CartView.post`) -/

/-- The `Cart` model row: (user, product, quantity, price); the schema has a
uniqueness constraint on (user, product).  Users and products are
identified by their numeric ids (`Product.product_id`). -/
structure CartLine where
  user : Nat
  product : Nat
  quantity : Nat
  price : Nat
  deriving Repr, DecidableEq

/-- The (user, product) key used by `get_or_create` and the unique
constraint on `Cart`. -/
def cartKey (uid pid : Nat) (c : CartLine) : Bool :=
  c.user == uid && c.product == pid

/-- Outcome of `CartView.post`. -/
inductive CartPostResult where
  /-- HTTP 201 added-to-cart (both the create and the increment branch). -/
  | added
  /-- HTTP 404 product-not-found. -/
  | productNotFound
  deriving Repr, DecidableEq

/-- View `CartView.post` (views.py lines 304-337): resolve the product (404 if
absent from the catalog), then `get_or_create` on (user, product): an
existing line gets `quantity += quantity` and is saved; otherwise a new
line is created with the requested quantity and price. -/
def cartViewPost (catalog : List Nat) (cart : List CartLine)
    (uid pid qty price : Nat) : CartPostResult × List CartLine :=
  if catalog.contains pid then
    match cart.find? (cartKey uid pid) with
    | some _ =>
      (.added,
        saveKeyed (cartKey uid pid) (fun c => { c with quantity := c.quantity + qty }) cart)
    | none => (.added, cart ++ [⟨uid, pid, qty, price⟩])
  else (.productNotFound, cart)

/-! ## Orders, order items, checkout
(`cart/models.py` `Order`/`OrderItem`/`Delivery`, `cart/views.py`
`CheckoutAPIView.post` and `DeliveryView.post`,
`cart/serializers.py` `OrderSerializer.create`) -/

/-- The `Order` model row (id, nullable user, status string).  Status values
used by the code: "Pending" (model default), "Placed", "Dispatched",
"Cancelled", "Cleared". -/
structure OrderRec where
  id : Nat
  user : Option Nat
  status : String
  deriving Repr, DecidableEq

/-- The `OrderItem` model row.  `price` has `default=0`; the schema comment
says it stores the price at time of order.  Uniqueness constraint on
(order, product, price). -/
structure OrderItemRec where
  order : Nat
  product : Nat
  quantity : Nat
  price : Nat
  deriving Repr, DecidableEq

/-- The delivery form fields that `DeliverySerializer` requires:
`phone_number` (`max_length=10`) and `shipping_address` (`max_length=100`)
are the only non-nullable, non-blank, defaultless fields; everything else
is optional or defaulted and plays no role in validation. -/
structure DeliveryForm where
  phone_number : Option String
  shipping_address : Option String
  deriving Repr, DecidableEq

/-- Validation `DeliverySerializer.is_valid`: both required `CharField`s must be
present, non-blank and within their `max_length`. -/
def deliveryFormValid (f : DeliveryForm) : Bool :=
  (match f.phone_number with
   | some s => decide (0 < s.length) && decide (s.length ≤ 10)
   | none => false) &&
  (match f.shipping_address with
   | some s => decide (0 < s.length) && decide (s.length ≤ 100)
   | none => false)

/-- Persistent state touched by the checkout/order/delivery views. -/
structure ShopDb where
  catalog : List Nat
  carts : List CartLine
  orders : List OrderRec
  orderItems : List OrderItemRec
  deliveries : List (Nat × DeliveryForm)
  deriving Repr, DecidableEq

/-- An item of the request body's `items` list: `{product_id, quantity}`
(the `.get('quantity', 1)` default is applied before this point). -/
structure ReqItem where
  product_id : Nat
  quantity : Nat
  deriving Repr, DecidableEq

/-- Effect of `order.delete()` with the `on_delete=CASCADE` foreign keys of
`OrderItem` and `Delivery`: the order row, its items and its delivery
rows disappear. -/
def deleteOrderCascade (db : ShopDb) (oid : Nat) : ShopDb :=
  { db with
    orders := db.orders.filter (fun o => o.id != oid)
    orderItems := db.orderItems.filter (fun it => it.order != oid)
    deliveries := db.deliveries.filter (fun d => d.1 != oid) }

/-- Why the item-creation loop of `CheckoutAPIView.post` stops early. -/
inductive ItemErr where
  /-- Exception `Product.DoesNotExist` for this product id. -/
  | missing (pid : Nat)
  /-- Storage-layer `IntegrityError`: the (order, product, price)
  uniqueness constraint of `OrderItem` is violated. -/
  | duplicate (pid : Nat)
  deriving Repr, DecidableEq

/-- The item loop of `CheckoutAPIView.post` (views.py lines 73-83): for
each `{product_id, quantity}` resolve the product and create an
`OrderItem(order, product, quantity)` — note `price` is not passed, so
the field default 0 applies.  A failed resolution aborts with the missing
id; an insert violating the (order, product, price) constraint aborts
with `IntegrityError`.  On error the accumulated table state at the
moment of failure is returned alongside, mirroring that the rows written
so far exist when the view runs `order.delete()`. -/
def checkoutCreateItems (catalog : List Nat) (oid : Nat) :
    List ReqItem → List OrderItemRec → Except (ItemErr × List OrderItemRec) (List OrderItemRec)
  | [], cur => .ok cur
  | it :: rest, cur =>
    if catalog.contains it.product_id then
      if cur.any (fun x => x.order == oid && x.product == it.product_id && x.price == 0) then
        .error (.duplicate it.product_id, cur)
      else
        checkoutCreateItems catalog oid rest (cur ++ [⟨oid, it.product_id, it.quantity, 0⟩])
    else .error (.missing it.product_id, cur)

/-- Outcome of `CheckoutAPIView.post`. -/
inductive CheckoutResult where
  /-- HTTP 400, cart is empty. -/
  | emptyCart
  /-- HTTP 400, product pid not found — the error names the product id. -/
  | productNotFound (pid : Nat)
  /-- HTTP 400 with `str(e)` from the generic exception handler (integrity error). -/
  | integrityError (pid : Nat)
  /-- HTTP 400 with the delivery serializer errors. -/
  | invalidDelivery
  /-- HTTP 201 with the created order. -/
  | created (oid : Nat)
  deriving Repr, DecidableEq

/-- The 400 response the checkout view produces for each way the item
loop can abort: the not-found message naming the product id for
`Product.DoesNotExist`, the stringified exception for the storage-layer
uniqueness violation. -/
def itemErrResponse : ItemErr → CheckoutResult
  | .missing pid => .productNotFound pid
  | .duplicate pid => .integrityError pid

/-- View `CheckoutAPIView.post` (views.py lines 54-123): reject an empty item
list; create an `Order(user, status='Placed')` with a fresh id `oid`;
create the order items (rolling the order back by cascade delete if a
product is missing or an insert fails); validate and attach the delivery
data (rolling back on invalid data); finally, when a user is
authenticated, delete every cart line of that user
(`Cart.objects.filter(user=user).delete()`). -/
def checkoutPost (db : ShopDb) (user : Option Nat) (items : List ReqItem)
    (form : DeliveryForm) (oid : Nat) : CheckoutResult × ShopDb :=
  if items.isEmpty then (.emptyCart, db)
  else
    match checkoutCreateItems db.catalog oid items db.orderItems with
    | .error (.missing pid, itemsAtFail) =>
      (.productNotFound pid,
        deleteOrderCascade
          { db with
            orders := db.orders ++ [⟨oid, user, "Placed"⟩]
            orderItems := itemsAtFail } oid)
    | .error (.duplicate pid, itemsAtFail) =>
      (.integrityError pid,
        deleteOrderCascade
          { db with
            orders := db.orders ++ [⟨oid, user, "Placed"⟩]
            orderItems := itemsAtFail } oid)
    | .ok newItems =>
      if deliveryFormValid form then
        match user with
        | some u =>
          (.created oid,
            { db with
              carts := db.carts.filter (fun c => c.user != u)
              orders := db.orders ++ [⟨oid, user, "Placed"⟩]
              orderItems := newItems
              deliveries := db.deliveries ++ [(oid, form)] })
        | none =>
          (.created oid,
            { db with
              orders := db.orders ++ [⟨oid, user, "Placed"⟩]
              orderItems := newItems
              deliveries := db.deliveries ++ [(oid, form)] })
      else
        (.invalidDelivery,
          deleteOrderCascade
            { db with
              orders := db.orders ++ [⟨oid, user, "Placed"⟩]
              orderItems := newItems } oid)

/-- The cart branch of `OrderSerializer.create` (serializers.py lines
37-42): for each cart line, delete it and create
`OrderItem(product=product, quantity=quantity, order=order)`.  The cart
line's `price` is NOT passed, so the created row carries the `OrderItem`
field default `price = 0`. -/
def orderItemsFromCarts (oid : Nat) (carts : List CartLine) : List OrderItemRec :=
  carts.map (fun c => ⟨oid, c.product, c.quantity, 0⟩)

/-- The direct-items branch of `OrderSerializer.create` (serializers.py
lines 45-53): for each `{product_id, quantity}` resolve the product and
create an order item (again without `price`); a `Product.DoesNotExist`
is swallowed by `continue`, silently skipping the item. -/
def orderItemsFromReqItems (catalog : List Nat) (oid : Nat)
    (items : List ReqItem) : List OrderItemRec :=
  items.filterMap (fun it =>
    if catalog.contains it.product_id then some ⟨oid, it.product_id, it.quantity, 0⟩
    else none)

/-- Outcome of `OrderAPIView.post`. -/
inductive OrderPostResult where
  /-- HTTP 400, either items or carts must be provided. -/
  | nothingProvided
  /-- HTTP 201 with the serialized order. -/
  | created (oid : Nat)
  deriving Repr, DecidableEq

/-- View `OrderAPIView.post` with a direct `items` list (views.py lines 30-48
plus `OrderSerializer.create`): creates an `Order` (status left at the
model default "Pending") and populates it via the silently-skipping item
branch.  There is no rollback path: the order persists whatever subset of
items resolved.  (Duplicate product ids in `items` would raise an
uncaught storage error; callers of this model pass distinct ids.) -/
def orderPostItems (db : ShopDb) (user : Option Nat) (items : List ReqItem)
    (oid : Nat) : OrderPostResult × ShopDb :=
  if items.isEmpty then (.nothingProvided, db)
  else
    (.created oid,
      { db with
        orders := db.orders ++ [⟨oid, user, "Pending"⟩]
        orderItems := db.orderItems ++ orderItemsFromReqItems db.catalog oid items })

/-! ## Delivery attachment and the notification sink
(`cart/views.py` `DeliveryView.post`, `cart/tasks.py` `send_order_email`) -/

/-- A message handed to the notification sink
(`send_order_email.delay(subject, text, html, from, to)`). -/
structure MailMsg where
  subject : String
  to_email : String
  deriving Repr, DecidableEq

/-- Outcome of `DeliveryView.post`. -/
inductive DeliveryPostResult where
  /-- HTTP 404, order not found. -/
  | orderNotFound
  /-- HTTP 400 from the serializer validation (raise_exception mode). -/
  | invalidData
  /-- HTTP 200, OKAY. -/
  | okay
  deriving Repr, DecidableEq

/-- Set the status of every order row with the given id (the save of the
fetched row; `id` is the primary key). -/
def setOrderStatus (orders : List OrderRec) (oid : Nat) (st : String) : List OrderRec :=
  saveKeyed (fun o => o.id == oid) (fun o => { o with status := st }) orders

/-- View `DeliveryView.post` (views.py lines 128-290): look up the order (404
if absent); validate the delivery data (400 if invalid); save the
delivery, set `order.status = "Placed"`, assemble the notification
subject/body — and return 200.  The dispatch to the notification sink,
`send_order_email.delay(...)` (views.py line 286), is commented out in
the source, so the outgoing mail queue is returned unchanged. -/
def deliveryViewPost (db : ShopDb) (mailQueue : List MailMsg) (order_id : Nat)
    (form : DeliveryForm) : DeliveryPostResult × ShopDb × List MailMsg :=
  match db.orders.find? (fun o => o.id == order_id) with
  | none => (.orderNotFound, db, mailQueue)
  | some _ =>
    if deliveryFormValid form then
      (.okay,
        { db with
          deliveries := db.deliveries ++ [(order_id, form)]
          orders := setOrderStatus db.orders order_id "Placed" },
        mailQueue)
    else (.invalidData, db, mailQueue)

/-! ## Payment gateway adapter
(`cart/models.py` `Payment`, `cart/stripe_views.py`) -/

/-- The `Payment` model row.  `status` ranges over
{"pending", "succeeded", "failed", "cancelled"}; the nullable one-to-one
links to `Order` and `Delivery` are modelled by optional ids. -/
structure PaymentRec where
  intent_id : String
  status : String
  charge_id : Option String
  order_id : Option Nat
  delivery_id : Option Nat
  deriving Repr, DecidableEq

/-- The `Delivery` row as seen by the payment flow: id and nullable
`payment_status`. -/
structure DeliveryRec where
  id : Nat
  payment_status : Option String
  deriving Repr, DecidableEq

/-- Persistent state touched by `ConfirmPaymentView` and the webhook. -/
structure PayDb where
  payments : List PaymentRec
  orders : List OrderRec
  deliveries : List DeliveryRec
  deriving Repr, DecidableEq

/-- The payment-intent state reported by the external processor
(`stripe.PaymentIntent.retrieve` / the webhook event object): the remote
status string and the id of the first charge when one exists. -/
structure RemoteIntent where
  status : String
  charge : Option String
  deriving Repr, DecidableEq

/-- Save a payment row fetched by `stripe_payment_intent_id` (a unique,
indexed column). -/
def savePaymentByIntent (ps : List PaymentRec) (iid : String)
    (f : PaymentRec → PaymentRec) : List PaymentRec :=
  saveKeyed (fun p => p.intent_id == iid) f ps

/-- Set the `payment_status` of every delivery row with the given id. -/
def setDeliveryPayStatus (ds : List DeliveryRec) (did : Nat)
    (st : Option String) : List DeliveryRec :=
  saveKeyed (fun d => d.id == did) (fun d => { d with payment_status := st }) ds

/-- The succeeded-branch update of `ConfirmPaymentView.post`
(stripe_views.py lines 150-156): set `status = 'succeeded'` and take the
charge id from the retrieved intent when the intent carries one
(`charges.data[0].id` / `intent.charge`), otherwise leave it. -/
def confirmSucceededUpdate (r : RemoteIntent) (p : PaymentRec) : PaymentRec :=
  { p with
    status := "succeeded"
    charge_id := match r.charge with | some c => some c | none => p.charge_id }

/-- The state written by the succeeded branch of `ConfirmPaymentView.post`
(stripe_views.py lines 150-166): the payment row is updated by
`confirmSucceededUpdate`, the linked order (when `payment.order` is set)
gets status "Cleared", and the linked delivery (when `payment.delivery`
is set) gets payment_status "Completed". -/
def confirmSucceededState (db : PayDb) (iid : String) (r : RemoteIntent)
    (p : PaymentRec) : PayDb :=
  { db with
    payments := savePaymentByIntent db.payments iid (confirmSucceededUpdate r)
    orders :=
      match p.order_id with
      | some oid => setOrderStatus db.orders oid "Cleared"
      | none => db.orders
    deliveries :=
      match p.delivery_id with
      | some did => setDeliveryPayStatus db.deliveries did (some "Completed")
      | none => db.deliveries }

/-- View `ConfirmPaymentView.post` (stripe_views.py lines 128-191), after a
successful `stripe.PaymentIntent.retrieve` whose result is `r`: look up
the local payment row by intent id (404 `'Payment not found.'` if
absent); then map the remote status: `succeeded` → local `succeeded` plus
cascades `Order.status = 'Cleared'` and
`Delivery.payment_status = 'Completed'` on the linked rows;
`processing` → `pending`; `requires_payment_method` → `failed`;
`canceled` → `cancelled`; any other remote status leaves the row as the
final unconditional `payment.save()` wrote it.  Returns the HTTP status
code and the new state. -/
def confirmIntent (db : PayDb) (iid : String) (r : RemoteIntent) : Nat × PayDb :=
  match db.payments.find? (fun p => p.intent_id == iid) with
  | none => (404, db)
  | some p =>
    if r.status = "succeeded" then
      (200, confirmSucceededState db iid r p)
    else if r.status = "processing" then
      (200, { db with payments :=
          savePaymentByIntent db.payments iid (fun q => { q with status := "pending" }) })
    else if r.status = "requires_payment_method" then
      (200, { db with payments :=
          savePaymentByIntent db.payments iid (fun q => { q with status := "failed" }) })
    else if r.status = "canceled" then
      (200, { db with payments :=
          savePaymentByIntent db.payments iid (fun q => { q with status := "cancelled" }) })
    else (200, db)

/-- Handler `_handle_payment_succeeded` (stripe_views.py lines 256-279): on a
matching payment row set `status = 'succeeded'`, overwrite the charge id
with the event's first charge (or `None`), and cascade
`Order.status = 'Cleared'` / `Delivery.payment_status = 'Completed'` on
the linked rows; a missing row is only logged. -/
def handlePaymentSucceeded (db : PayDb) (iid : String) (charge : Option String) : PayDb :=
  match db.payments.find? (fun p => p.intent_id == iid) with
  | none => db
  | some p =>
    { db with
      payments :=
        savePaymentByIntent db.payments iid
          (fun q => { q with status := "succeeded", charge_id := charge })
      orders :=
        match p.order_id with
        | some oid => setOrderStatus db.orders oid "Cleared"
        | none => db.orders
      deliveries :=
        match p.delivery_id with
        | some did => setDeliveryPayStatus db.deliveries did (some "Completed")
        | none => db.deliveries }

/-- Handler `_handle_payment_failed` (stripe_views.py lines 282-300): on a
matching payment row set `status = 'failed'` and cascade
`Order.status = 'Cancelled'` on the linked order; a missing row is only
logged (warn and continue), mutating nothing. -/
def handlePaymentFailed (db : PayDb) (iid : String) : PayDb :=
  match db.payments.find? (fun p => p.intent_id == iid) with
  | none => db
  | some p =>
    { db with
      payments :=
        savePaymentByIntent db.payments iid (fun q => { q with status := "failed" })
      orders :=
        match p.order_id with
        | some oid => setOrderStatus db.orders oid "Cancelled"
        | none => db.orders }

/-- A webhook event after successful signature verification: the event
type, the payment-intent id of the embedded object, and its first charge
id when present. -/
structure WebhookEvent where
  etype : String
  intent_id : String
  charge : Option String
  deriving Repr, DecidableEq

/-- The dispatch of `stripe_webhook` (stripe_views.py lines 236-253) for a
signature-verified event: `payment_intent.succeeded` and
`payment_intent.payment_failed` run their handlers (which swallow their
own lookup misses), `charge.dispute.created` only logs, and any other
event type is ignored; in all these cases the view answers
`{'status': 'success'}` with HTTP 200. -/
def stripeWebhook (db : PayDb) (ev : WebhookEvent) : Nat × PayDb :=
  if ev.etype = "payment_intent.succeeded" then
    (200, handlePaymentSucceeded db ev.intent_id ev.charge)
  else if ev.etype = "payment_intent.payment_failed" then
    (200, handlePaymentFailed db ev.intent_id)
  else if ev.etype = "charge.dispute.created" then (200, db)
  else (200, db)

/-- Observer: the local status of the payment with the given intent id. -/
def paymentStatusOf (db : PayDb) (iid : String) : Option String :=
  (db.payments.find? (fun p => p.intent_id == iid)).map (·.status)

/-- Observer: the status of the order with the given id. -/
def orderStatusOf (db : PayDb) (oid : Nat) : Option String :=
  (db.orders.find? (fun o => o.id == oid)).map (·.status)

/-- Observer: the `payment_status` of the delivery with the given id. -/
def deliveryPayStatusOf (db : PayDb) (did : Nat) : Option (Option String) :=
  (db.deliveries.find? (fun d => d.id == did)).map (·.payment_status)

/-- The first product id of `items` that the catalog does not resolve, in
request order (the id named by the checkout error message). -/
def firstMissingPid (catalog : List Nat) : List ReqItem → Option Nat
  | [] => none
  | it :: rest =>
    if catalog.contains it.product_id then firstMissingPid catalog rest
    else some it.product_id

/-! ## Generic lemmas about keyed saves -/

theorem saveKeyed_nil {A : Type} (key : A → Bool) (f : A → A) :
    saveKeyed key f [] = [] := rfl

theorem saveKeyed_cons {A : Type} (key : A → Bool) (f : A → A) (a : A) (l : List A) :
    saveKeyed key f (a :: l) = (if key a then f a else a) :: saveKeyed key f l := rfl

/-- Fetching by the key after a keyed save returns the updated row. -/
theorem find?_saveKeyed {A : Type} (key : A → Bool) (f : A → A)
    (hk : ∀ x, key (f x) = key x) (l : List A) :
    (saveKeyed key f l).find? key = (l.find? key).map f := by
  induction l with
  | nil => rfl
  | cons a t ih =>
    by_cases h : key a
    · rw [saveKeyed_cons, if_pos h, List.find?_cons, List.find?_cons]
      rw [hk a, h]
      rfl
    · rw [saveKeyed_cons, if_neg h, List.find?_cons, List.find?_cons]
      rw [Bool.not_eq_true] at h
      rw [h]
      exact ih

/-- A keyed save whose row update is idempotent is itself idempotent. -/
theorem saveKeyed_idem {A : Type} (key : A → Bool) (f : A → A)
    (hk : ∀ x, key (f x) = key x) (hf : ∀ x, f (f x) = f x) (l : List A) :
    saveKeyed key f (saveKeyed key f l) = saveKeyed key f l := by
  induction l with
  | nil => rfl
  | cons a t ih =>
    by_cases h : key a
    · rw [saveKeyed_cons, if_pos h, saveKeyed_cons]
      rw [hk a, if_pos h, hf a, ih]
    · rw [saveKeyed_cons, if_neg h, saveKeyed_cons, if_neg h, ih]

/-- A keyed save that touches no row (no row matches the key) is the
identity. -/
theorem saveKeyed_of_no_key {A : Type} (key : A → Bool) (f : A → A)
    {l : List A} (h : ∀ x ∈ l, key x = false) : saveKeyed key f l = l := by
  induction l with
  | nil => rfl
  | cons a t ih =>
    rw [saveKeyed_cons, if_neg (by simp [h a (List.mem_cons_self a t)])]
    rw [ih (fun x hx => h x (List.mem_cons_of_mem a hx))]

/-- Lookup `find?` skips a prefix in which nothing matches. -/
theorem find?_append_of_none {A : Type} {p : A → Bool} {l1 l2 : List A}
    (h : l1.find? p = none) : (l1 ++ l2).find? p = l2.find? p := by
  induction l1 with
  | nil => rfl
  | cons a t ih =>
    rw [List.find?_cons] at h
    rw [List.cons_append, List.find?_cons]
    cases hpa : p a with
    | true => rw [hpa] at h; cases h
    | false =>
      rw [hpa] at h
      exact ih h

/-! ## Claim C5 — coupon validity -/

/-- A coupon that is inactive but unexpired and unused. -/
def inactiveCoupon : Coupon := ⟨"SAVE10", 10, 0, false, some 100, 5, 0⟩

/-- Claim C5 refuted as stated: `Coupon.is_valid` never consults the
`active` flag, so `inactiveCoupon` (with `active = false`, expiry day 100
in the future of day 50, and `used_count 0 < usage_limit 5`) is reported
valid, while the claim requires invalid whenever `active` is false. -/
theorem coupon_active_flag_ignored :
    inactiveCoupon.active = false ∧ couponIsValid inactiveCoupon 50 = .ok true :=
  ⟨rfl, rfl⟩

/-- Claim C5 (amended): for every coupon whose `expiry_date` is set, the
validity check returns valid iff the expiry date is not in the past and
`used_count < usage_limit`; in particular it returns invalid whenever
`used_count >= usage_limit` regardless of expiry and invalid whenever
`expiry_date < today` regardless of usage count.  The `active` flag is
not consulted (and an unset expiry date raises instead of returning a
verdict, see the C9 theorem). -/
theorem couponIsValid_characterization (c : Coupon) (d today : Nat)
    (hd : c.expiry_date = some d) :
    (couponIsValid c today = .ok true ↔ today ≤ d ∧ c.used_count < c.usage_limit) ∧
    (c.usage_limit ≤ c.used_count → couponIsValid c today = .ok false) ∧
    (d < today → couponIsValid c today = .ok false) := by
  have hval : couponIsValid c today =
      if d < today then .ok false
      else if c.usage_limit ≤ c.used_count then .ok false else .ok true := by
    unfold couponIsValid; rw [hd]
  by_cases h1 : d < today
  · rw [hval, if_pos h1]
    exact ⟨⟨fun h => (Bool.false_ne_true (Except.ok.inj h)).elim,
            fun h => absurd h.1 (by omega)⟩,
           fun _ => rfl, fun _ => rfl⟩
  · by_cases h2 : c.usage_limit ≤ c.used_count
    · rw [hval, if_neg h1, if_pos h2]
      exact ⟨⟨fun h => (Bool.false_ne_true (Except.ok.inj h)).elim,
              fun h => absurd h.2 (by omega)⟩,
             fun _ => rfl, fun h => absurd h h1⟩
    · rw [hval, if_neg h1, if_neg h2]
      exact ⟨⟨fun _ => ⟨by omega, by omega⟩, fun _ => rfl⟩,
             fun h => absurd h h2, fun h => absurd h h1⟩

/-- A currently valid coupon: expiry day 10, used 2 of 5. -/
def liveCoupon : Coupon := ⟨"SAVE10", 10, 0, true, some 10, 5, 2⟩

/-- Witness for the amended C5 theorem at `liveCoupon` on day 5. -/
theorem couponIsValid_characterization_witness :
    couponIsValid liveCoupon 5 = .ok true :=
  ((couponIsValid_characterization liveCoupon 10 5 rfl).1).mpr (by decide)

/-! ## Claim C9 — unset expiry date raises -/

/-- Claim C9: for every coupon whose `expiry_date` is unset (which the
model permits, `null=True`), `Coupon.is_valid` raises a `TypeError`
(Python compares `None < date`) instead of returning a verdict, and the
public coupon endpoint consequently errors out rather than treating the
coupon as non-expiring. -/
theorem coupon_null_expiry_raises (coupons : List Coupon) (cd : String)
    (c : Coupon) (today : Nat)
    (hfind : coupons.find? (fun x => x.code == cd) = some c)
    (hexp : c.expiry_date = none) :
    couponIsValid c today = .error .typeError ∧
    couponViewGet coupons (some cd) today = (.serverError .typeError, coupons) := by
  have hv : couponIsValid c today = .error .typeError := by
    unfold couponIsValid; rw [hexp]
  refine ⟨hv, ?_⟩
  simp [couponViewGet, hfind, applyCoupon, hv]

/-- A coupon row with no expiry date. -/
def noExpiryCoupon : Coupon := ⟨"FOREVER", 5, 0, true, none, 10, 0⟩

/-- Witness for the C9 theorem: the endpoint errors on `noExpiryCoupon`. -/
theorem coupon_null_expiry_raises_witness :
    couponIsValid noExpiryCoupon 1 = .error .typeError ∧
    couponViewGet [noExpiryCoupon] (some "FOREVER") 1 =
      (.serverError .typeError, [noExpiryCoupon]) :=
  coupon_null_expiry_raises [noExpiryCoupon] "FOREVER" noExpiryCoupon 1 rfl rfl

/-! ## Claim C4 — order items do not copy the cart line's price -/

/-- Claim C4 fails on the code: converting a cart line with price 500
through `OrderSerializer.create` yields an `OrderItem` whose `price` is
the field default 0, not the cart line's captured price — the serializer
passes only `product` and `quantity` to `OrderItem.objects.create`,
contradicting the model's own comment that the field stores the price at
time of order. -/
theorem order_items_price_defaults_to_zero :
    orderItemsFromCarts 42 [⟨7, 3, 2, 500⟩] = [⟨42, 3, 2, 0⟩] ∧
    (orderItemsFromCarts 42 [⟨7, 3, 2, 500⟩]).map (fun it => it.price) = [0] ∧
    ([(⟨7, 3, 2, 500⟩ : CartLine)]).map (fun c => c.price) = [500] := by
  exact ⟨rfl, rfl, rfl⟩

/-! ## Claim C7 — delivery attachment sets Placed but dispatches nothing -/

/-- A pending order with one item, and a valid delivery form. -/
def dbC7 : ShopDb := ⟨[1], [], [⟨5, some 7, "Pending"⟩], [⟨5, 1, 2, 0⟩], []⟩

/-- Claim C7 fails on the code: attaching valid delivery data to order 5
does set its status to "Placed" and answers 200, but the outgoing mail
queue is unchanged — for every input the view leaves the queue exactly as
it was, because the `send_order_email.delay(...)` call is commented out.
The claim requires a notification dispatch to the Notification Sink. -/
theorem delivery_attach_placed_but_no_notification :
    (deliveryViewPost dbC7 [] 5 ⟨some "9841000000", some "Kathmandu"⟩).1 = .okay ∧
    (deliveryViewPost dbC7 [] 5 ⟨some "9841000000", some "Kathmandu"⟩).2.1.orders =
      [⟨5, some 7, "Placed"⟩] ∧
    (deliveryViewPost dbC7 [] 5 ⟨some "9841000000", some "Kathmandu"⟩).2.2 = [] ∧
    (∀ (db : ShopDb) (mq : List MailMsg) (oid : Nat) (form : DeliveryForm),
      (deliveryViewPost db mq oid form).2.2 = mq) := by
  refine ⟨by decide, by decide, by decide, ?_⟩
  intro db mq oid form
  unfold deliveryViewPost
  cases db.orders.find? (fun o => o.id == oid) with
  | none => rfl
  | some o =>
    by_cases h : deliveryFormValid form
    · simp only [if_pos h]
    · simp only [if_neg h]

/-- A filter over a list in which nothing matches is empty. -/
theorem filter_eq_nil_of_no_key {A : Type} {p : A → Bool} {l : List A}
    (h : ∀ x ∈ l, p x = false) : l.filter p = [] := by
  induction l with
  | nil => rfl
  | cons a t ih =>
    rw [List.filter_cons, if_neg (by simp [h a (List.mem_cons_self a t)])]
    exact ih fun x hx => h x (List.mem_cons_of_mem a hx)

/-! ## Claim C8 — adding the same product twice accumulates quantity -/

/-- Claim C8: for an authenticated user and a product the catalog
resolves, adding the product twice (quantities `q1`, `q2`) to a cart that
has no line for this (user, product) pair yet leaves exactly one cart
line for the pair, with quantity `q1 + q2` (and the price captured by the
first add); and the add fails with NotFound (404) whenever the product id
does not resolve, leaving the cart unchanged. -/
theorem cart_add_twice_accumulates (catalog : List Nat) (cart : List CartLine)
    (uid pid q1 q2 pr1 pr2 : Nat)
    (hp : catalog.contains pid = true)
    (h0 : ∀ x ∈ cart, cartKey uid pid x = false) :
    ((cartViewPost catalog ((cartViewPost catalog cart uid pid q1 pr1).2) uid pid q2 pr2).2).filter
        (cartKey uid pid) = [⟨uid, pid, q1 + q2, pr1⟩] ∧
    (∀ pid2 q pr, catalog.contains pid2 = false →
      cartViewPost catalog cart uid pid2 q pr = (.productNotFound, cart)) := by
  have hfind0 : cart.find? (cartKey uid pid) = none :=
    List.find?_eq_none.mpr (fun x hx => by simp [h0 x hx])
  have hkey1 : cartKey uid pid ⟨uid, pid, q1, pr1⟩ = true := by simp [cartKey]
  have hstep1 : (cartViewPost catalog cart uid pid q1 pr1).2 = cart ++ [⟨uid, pid, q1, pr1⟩] := by
    unfold cartViewPost
    rw [if_pos hp, hfind0]
  constructor
  · rw [hstep1]
    have hfind1 : (cart ++ [(⟨uid, pid, q1, pr1⟩ : CartLine)]).find? (cartKey uid pid) =
        some ⟨uid, pid, q1, pr1⟩ := by
      rw [find?_append_of_none hfind0]
      exact List.find?_cons_of_pos _ hkey1
    unfold cartViewPost
    rw [if_pos hp, hfind1]
    show (saveKeyed (cartKey uid pid) (fun c => { c with quantity := c.quantity + q2 })
        (cart ++ [(⟨uid, pid, q1, pr1⟩ : CartLine)])).filter (cartKey uid pid) = _
    have hsave : saveKeyed (cartKey uid pid) (fun c => { c with quantity := c.quantity + q2 })
        (cart ++ [(⟨uid, pid, q1, pr1⟩ : CartLine)]) = cart ++ [⟨uid, pid, q1 + q2, pr1⟩] := by
      show (cart ++ [(⟨uid, pid, q1, pr1⟩ : CartLine)]).map _ = _
      rw [List.map_append]
      show saveKeyed _ _ cart ++ saveKeyed _ _ [⟨uid, pid, q1, pr1⟩] = _
      rw [saveKeyed_of_no_key _ _ h0, saveKeyed_cons, if_pos hkey1, saveKeyed_nil]
    rw [hsave, List.filter_append, filter_eq_nil_of_no_key h0, List.filter_cons,
      if_pos (by simp [cartKey])]
    rfl
  · intro pid2 q pr h
    unfold cartViewPost
    have hne : ¬ (catalog.contains pid2 = true) := by
      rw [h]; exact Bool.false_ne_true
    rw [if_neg hne]

/-- Witness for the C8 theorem: catalog `[1]`, empty cart, user 7 adds
product 1 with quantities 2 then 3 — one line with quantity 5 remains;
product 9 is unresolvable and yields 404. -/
theorem cart_add_twice_accumulates_witness :
    ((cartViewPost [1] ((cartViewPost [1] [] 7 1 2 100).2) 7 1 3 200).2).filter (cartKey 7 1) =
      [⟨7, 1, 2 + 3, 100⟩] ∧
    cartViewPost [1] [] 7 9 4 50 = (.productNotFound, []) := by
  have h := cart_add_twice_accumulates [1] [] 7 1 2 3 100 200 rfl (by simp)
  exact ⟨h.1, h.2 9 4 50 rfl⟩

/-! ## Payment lemmas and Claim C1 — confirm status mapping -/

/-- Fetching a payment by intent id after saving it returns the updated
row (every modelled update leaves `intent_id` untouched). -/
theorem find?_savePaymentByIntent (ps : List PaymentRec) (iid : String)
    (f : PaymentRec → PaymentRec) (hf : ∀ q, (f q).intent_id = q.intent_id) :
    (savePaymentByIntent ps iid f).find? (fun p => p.intent_id == iid) =
      (ps.find? (fun p => p.intent_id == iid)).map f :=
  find?_saveKeyed _ _ (fun x => by rw [hf x]) ps

/-- Fetching an order by id after a status save returns the updated row. -/
theorem find?_setOrderStatus (orders : List OrderRec) (oid : Nat) (st : String) :
    (setOrderStatus orders oid st).find? (fun o => o.id == oid) =
      (orders.find? (fun o => o.id == oid)).map (fun o => { o with status := st }) :=
  find?_saveKeyed (fun o => o.id == oid) (fun o => { o with status := st }) (fun _ => rfl) orders

/-- Fetching a delivery by id after a payment-status save returns the
updated row. -/
theorem find?_setDeliveryPayStatus (ds : List DeliveryRec) (did : Nat) (st : Option String) :
    (setDeliveryPayStatus ds did st).find? (fun d => d.id == did) =
      (ds.find? (fun d => d.id == did)).map (fun d => { d with payment_status := st }) :=
  find?_saveKeyed (fun d => d.id == did) (fun d => { d with payment_status := st })
    (fun _ => rfl) ds

/-- Claim C1: on a confirmation call, when no local `Payment` row matches
the intent id the call fails with 404 and mutates nothing; when a row
matches, the processor's reported intent status is mapped to the local
`Payment.status` as `succeeded → succeeded` (with the linked order, if
any, set to "Cleared" and the linked delivery, if any, set to
payment_status "Completed"), `processing → pending`,
`requires_payment_method → failed`, and `canceled → cancelled`. -/
theorem confirm_status_mapping (db : PayDb) (iid : String) (r : RemoteIntent) :
    (db.payments.find? (fun p => p.intent_id == iid) = none →
      confirmIntent db iid r = (404, db)) ∧
    (∀ p, db.payments.find? (fun p => p.intent_id == iid) = some p →
      (r.status = "succeeded" →
        paymentStatusOf (confirmIntent db iid r).2 iid = some "succeeded" ∧
        (∀ oid, p.order_id = some oid →
          orderStatusOf (confirmIntent db iid r).2 oid =
            (orderStatusOf db oid).map (fun _ => "Cleared")) ∧
        (∀ did, p.delivery_id = some did →
          deliveryPayStatusOf (confirmIntent db iid r).2 did =
            (deliveryPayStatusOf db did).map (fun _ => some "Completed"))) ∧
      (r.status = "processing" →
        paymentStatusOf (confirmIntent db iid r).2 iid = some "pending") ∧
      (r.status = "requires_payment_method" →
        paymentStatusOf (confirmIntent db iid r).2 iid = some "failed") ∧
      (r.status = "canceled" →
        paymentStatusOf (confirmIntent db iid r).2 iid = some "cancelled")) := by
  constructor
  · intro hnone
    unfold confirmIntent
    rw [hnone]
  · intro p hfind
    refine ⟨?_, ?_, ?_, ?_⟩
    · intro hr
      have hconf : (confirmIntent db iid r).2 = confirmSucceededState db iid r p := by
        unfold confirmIntent
        simp only [hfind]
        rw [if_pos hr]
      rw [hconf]
      unfold confirmSucceededState
      refine ⟨?_, ?_, ?_⟩
      · show ((savePaymentByIntent db.payments iid
            (confirmSucceededUpdate r)).find? (fun p => p.intent_id == iid)).map (fun q => q.status) =
          some "succeeded"
        rw [find?_savePaymentByIntent db.payments iid (confirmSucceededUpdate r) (fun _ => rfl),
          hfind]
        rfl
      · intro oid hoid
        rw [hoid]
        show ((setOrderStatus db.orders oid "Cleared").find?
            (fun o => o.id == oid)).map (fun o => o.status) = _
        rw [find?_setOrderStatus]
        unfold orderStatusOf
        cases db.orders.find? (fun o => o.id == oid) with
        | none => rfl
        | some o => rfl
      · intro did hdid
        rw [hdid]
        show ((setDeliveryPayStatus db.deliveries did (some "Completed")).find?
            (fun d => d.id == did)).map (fun d => d.payment_status) = _
        rw [find?_setDeliveryPayStatus]
        unfold deliveryPayStatusOf
        cases db.deliveries.find? (fun d => d.id == did) with
        | none => rfl
        | some d => rfl
    · intro hr
      have hne1 : ¬ (r.status = "succeeded") := by rw [hr]; decide
      have hconf : (confirmIntent db iid r).2 =
          { db with payments :=
              savePaymentByIntent db.payments iid (fun q => { q with status := "pending" }) } := by
        unfold confirmIntent
        simp only [hfind]
        rw [if_neg hne1, if_pos hr]
      rw [hconf]
      show ((savePaymentByIntent db.payments iid
          (fun q => { q with status := "pending" })).find?
            (fun p => p.intent_id == iid)).map (fun q => q.status) = some "pending"
      rw [find?_savePaymentByIntent db.payments iid
        (fun q => { q with status := "pending" }) (fun _ => rfl), hfind]
      rfl
    · intro hr
      have hne1 : ¬ (r.status = "succeeded") := by rw [hr]; decide
      have hne2 : ¬ (r.status = "processing") := by rw [hr]; decide
      have hconf : (confirmIntent db iid r).2 =
          { db with payments :=
              savePaymentByIntent db.payments iid (fun q => { q with status := "failed" }) } := by
        unfold confirmIntent
        simp only [hfind]
        rw [if_neg hne1, if_neg hne2, if_pos hr]
      rw [hconf]
      show ((savePaymentByIntent db.payments iid
          (fun q => { q with status := "failed" })).find?
            (fun p => p.intent_id == iid)).map (fun q => q.status) = some "failed"
      rw [find?_savePaymentByIntent db.payments iid
        (fun q => { q with status := "failed" }) (fun _ => rfl), hfind]
      rfl
    · intro hr
      have hne1 : ¬ (r.status = "succeeded") := by rw [hr]; decide
      have hne2 : ¬ (r.status = "processing") := by rw [hr]; decide
      have hne3 : ¬ (r.status = "requires_payment_method") := by rw [hr]; decide
      have hconf : (confirmIntent db iid r).2 =
          { db with payments :=
              savePaymentByIntent db.payments iid (fun q => { q with status := "cancelled" }) } := by
        unfold confirmIntent
        simp only [hfind]
        rw [if_neg hne1, if_neg hne2, if_neg hne3, if_pos hr]
      rw [hconf]
      show ((savePaymentByIntent db.payments iid
          (fun q => { q with status := "cancelled" })).find?
            (fun p => p.intent_id == iid)).map (fun q => q.status) = some "cancelled"
      rw [find?_savePaymentByIntent db.payments iid
        (fun q => { q with status := "cancelled" }) (fun _ => rfl), hfind]
      rfl

/-- A one-payment state: intent `pi_1` pending, linked to order 5
(status "Placed") and delivery 6 (payment_status "Pending"). -/
def payDb0 : PayDb :=
  ⟨[⟨"pi_1", "pending", none, some 5, some 6⟩], [⟨5, some 7, "Placed"⟩], [⟨6, some "Pending"⟩]⟩

/-- Witness for the C1 theorem on `payDb0`: a succeeded remote intent
flips the payment to succeeded and the linked order to "Cleared", and an
unknown intent id answers 404 without mutation. -/
theorem confirm_status_mapping_witness :
    paymentStatusOf (confirmIntent payDb0 "pi_1" ⟨"succeeded", some "ch_1"⟩).2 "pi_1" =
      some "succeeded" ∧
    orderStatusOf (confirmIntent payDb0 "pi_1" ⟨"succeeded", some "ch_1"⟩).2 5 =
      (orderStatusOf payDb0 5).map (fun _ => "Cleared") ∧
    confirmIntent payDb0 "pi_9" ⟨"succeeded", none⟩ = (404, payDb0) := by
  have h := (confirm_status_mapping payDb0 "pi_1" ⟨"succeeded", some "ch_1"⟩).2
      ⟨"pi_1", "pending", none, some 5, some 6⟩ rfl
  exact ⟨((h.1) rfl).1, ((h.1) rfl).2.1 5 rfl,
    (confirm_status_mapping payDb0 "pi_9" ⟨"succeeded", none⟩).1 rfl⟩

/-! ## Claim C2 — confirming a succeeded intent is idempotent -/

/-- The succeeded-branch row update is idempotent. -/
theorem confirmSucceededUpdate_idem (r : RemoteIntent) (x : PaymentRec) :
    confirmSucceededUpdate r (confirmSucceededUpdate r x) = confirmSucceededUpdate r x := by
  unfold confirmSucceededUpdate
  cases r.charge with
  | none => rfl
  | some c => rfl

/-- Saving the same idempotent payment update twice equals saving once. -/
theorem savePaymentByIntent_idem (ps : List PaymentRec) (iid : String)
    (f : PaymentRec → PaymentRec) (hfk : ∀ q, (f q).intent_id = q.intent_id)
    (hff : ∀ q, f (f q) = f q) :
    savePaymentByIntent (savePaymentByIntent ps iid f) iid f =
      savePaymentByIntent ps iid f := by
  show saveKeyed (fun p : PaymentRec => p.intent_id == iid) f
      (saveKeyed (fun p : PaymentRec => p.intent_id == iid) f ps) =
    saveKeyed (fun p : PaymentRec => p.intent_id == iid) f ps
  exact saveKeyed_idem (fun p : PaymentRec => p.intent_id == iid) f
    (fun x => by simp [hfk x]) hff ps

/-- Setting the same order status twice equals setting it once. -/
theorem setOrderStatus_idem (orders : List OrderRec) (oid : Nat) (st : String) :
    setOrderStatus (setOrderStatus orders oid st) oid st = setOrderStatus orders oid st := by
  show saveKeyed (fun o : OrderRec => o.id == oid) (fun o => { o with status := st })
      (saveKeyed (fun o : OrderRec => o.id == oid) (fun o => { o with status := st }) orders) = _
  exact saveKeyed_idem (fun o : OrderRec => o.id == oid) (fun o => { o with status := st })
    (fun _ => rfl) (fun _ => rfl) orders

/-- Setting the same delivery payment status twice equals setting it once. -/
theorem setDeliveryPayStatus_idem (ds : List DeliveryRec) (did : Nat) (st : Option String) :
    setDeliveryPayStatus (setDeliveryPayStatus ds did st) did st =
      setDeliveryPayStatus ds did st := by
  show saveKeyed (fun d : DeliveryRec => d.id == did)
      (fun d => { d with payment_status := st })
      (saveKeyed (fun d : DeliveryRec => d.id == did)
        (fun d => { d with payment_status := st }) ds) = _
  exact saveKeyed_idem (fun d : DeliveryRec => d.id == did)
    (fun d => { d with payment_status := st }) (fun _ => rfl) (fun _ => rfl) ds

/-- Applying the succeeded cascade a second time (now reading the already
updated payment row) rewrites every field to the value it already has. -/
theorem confirmSucceededState_idem (db : PayDb) (iid : String) (r : RemoteIntent)
    (p : PaymentRec) :
    confirmSucceededState (confirmSucceededState db iid r p) iid r
        (confirmSucceededUpdate r p) =
      confirmSucceededState db iid r p := by
  have horder : (confirmSucceededUpdate r p).order_id = p.order_id := rfl
  have hdel : (confirmSucceededUpdate r p).delivery_id = p.delivery_id := rfl
  unfold confirmSucceededState
  rw [horder, hdel]
  cases p.order_id with
  | none =>
    cases p.delivery_id with
    | none =>
      dsimp only
      rw [savePaymentByIntent_idem db.payments iid (confirmSucceededUpdate r)
        (fun _ => rfl) (confirmSucceededUpdate_idem r)]
    | some did =>
      dsimp only
      rw [savePaymentByIntent_idem db.payments iid (confirmSucceededUpdate r)
        (fun _ => rfl) (confirmSucceededUpdate_idem r)]
      rw [setDeliveryPayStatus_idem]
  | some oid =>
    cases p.delivery_id with
    | none =>
      dsimp only
      rw [savePaymentByIntent_idem db.payments iid (confirmSucceededUpdate r)
        (fun _ => rfl) (confirmSucceededUpdate_idem r)]
      rw [setOrderStatus_idem]
    | some did =>
      dsimp only
      rw [savePaymentByIntent_idem db.payments iid (confirmSucceededUpdate r)
        (fun _ => rfl) (confirmSucceededUpdate_idem r)]
      rw [setOrderStatus_idem, setDeliveryPayStatus_idem]

/-- Claim C2: for a remote intent whose status is `succeeded`, running the
confirmation a second time reproduces exactly the state after the first
run — in particular `Payment.status`, the linked `Order.status`, and the
linked `Delivery.payment_status` are unchanged by the second call (the
repeated cascade rewrites the same terminal values). -/
theorem confirm_succeeded_idempotent (db : PayDb) (iid : String) (r : RemoteIntent)
    (hr : r.status = "succeeded") :
    (confirmIntent (confirmIntent db iid r).2 iid r).2 = (confirmIntent db iid r).2 := by
  cases hfind : db.payments.find? (fun p => p.intent_id == iid) with
  | none =>
    have h1 : confirmIntent db iid r = (404, db) := by
      unfold confirmIntent
      rw [hfind]
    rw [h1]
    show (confirmIntent db iid r).2 = db
    rw [h1]
  | some p =>
    have h1 : confirmIntent db iid r = (200, confirmSucceededState db iid r p) := by
      unfold confirmIntent
      simp only [hfind]
      rw [if_pos hr]
    have hfind2 : (confirmSucceededState db iid r p).payments.find?
        (fun q => q.intent_id == iid) = some (confirmSucceededUpdate r p) := by
      show (savePaymentByIntent db.payments iid (confirmSucceededUpdate r)).find?
          (fun q => q.intent_id == iid) = _
      rw [find?_savePaymentByIntent db.payments iid (confirmSucceededUpdate r)
        (fun _ => rfl), hfind]
      rfl
    have h2 : confirmIntent (confirmSucceededState db iid r p) iid r =
        (200, confirmSucceededState db iid r p) := by
      unfold confirmIntent
      simp only [hfind2]
      rw [if_pos hr]
      rw [confirmSucceededState_idem]
    rw [h1]
    show (confirmIntent (confirmSucceededState db iid r p) iid r).2 =
      confirmSucceededState db iid r p
    rw [h2]

/-- Witness for the C2 theorem at `payDb0` with a succeeded intent. -/
theorem confirm_succeeded_idempotent_witness :
    (confirmIntent (confirmIntent payDb0 "pi_1" ⟨"succeeded", some "ch_1"⟩).2
        "pi_1" ⟨"succeeded", some "ch_1"⟩).2 =
      (confirmIntent payDb0 "pi_1" ⟨"succeeded", some "ch_1"⟩).2 :=
  confirm_succeeded_idempotent payDb0 "pi_1" ⟨"succeeded", some "ch_1"⟩ rfl

/-! ## Claim C6 — webhook payment_failed -/

/-- Claim C6: for a verified `payment_intent.payment_failed` webhook
event: when a local payment row matches the event's intent id, the
handler sets `Payment.status = failed` and, when an order is linked, that
order's status to "Cancelled" (deliveries untouched), answering 200; when
no row matches, the event is only logged — the state is returned
unchanged — and the handler still answers 200. -/
theorem webhook_payment_failed_behavior (db : PayDb) (ev : WebhookEvent)
    (hev : ev.etype = "payment_intent.payment_failed") :
    (db.payments.find? (fun p => p.intent_id == ev.intent_id) = none →
      stripeWebhook db ev = (200, db)) ∧
    (∀ p, db.payments.find? (fun p => p.intent_id == ev.intent_id) = some p →
      (stripeWebhook db ev).1 = 200 ∧
      paymentStatusOf (stripeWebhook db ev).2 ev.intent_id = some "failed" ∧
      (∀ oid, p.order_id = some oid →
        orderStatusOf (stripeWebhook db ev).2 oid =
          (orderStatusOf db oid).map (fun _ => "Cancelled")) ∧
      (p.order_id = none → (stripeWebhook db ev).2.orders = db.orders) ∧
      (stripeWebhook db ev).2.deliveries = db.deliveries) := by
  have hne : ¬ (ev.etype = "payment_intent.succeeded") := by
    rw [hev]; decide
  have hwh : stripeWebhook db ev = (200, handlePaymentFailed db ev.intent_id) := by
    unfold stripeWebhook
    rw [if_neg hne, if_pos hev]
  constructor
  · intro hnone
    rw [hwh]
    have : handlePaymentFailed db ev.intent_id = db := by
      unfold handlePaymentFailed
      rw [hnone]
    rw [this]
  · intro p hfind
    have hfail : handlePaymentFailed db ev.intent_id =
        { db with
          payments := savePaymentByIntent db.payments ev.intent_id
            (fun q => { q with status := "failed" })
          orders :=
            match p.order_id with
            | some oid => setOrderStatus db.orders oid "Cancelled"
            | none => db.orders } := by
      unfold handlePaymentFailed
      simp only [hfind]
    rw [hwh, hfail]
    refine ⟨rfl, ?_, ?_, ?_, rfl⟩
    · show ((savePaymentByIntent db.payments ev.intent_id
        (fun q => { q with status := "failed" })).find?
          (fun p => p.intent_id == ev.intent_id)).map (fun q => q.status) = some "failed"
      rw [find?_savePaymentByIntent db.payments ev.intent_id
        (fun q => { q with status := "failed" }) (fun _ => rfl), hfind]
      rfl
    · intro oid hoid
      rw [hoid]
      show ((setOrderStatus db.orders oid "Cancelled").find?
          (fun o => o.id == oid)).map (fun o => o.status) = _
      rw [find?_setOrderStatus]
      unfold orderStatusOf
      cases db.orders.find? (fun o => o.id == oid) with
      | none => rfl
      | some o => rfl
    · intro hoid
      rw [hoid]

/-- Witness for the C6 theorem on `payDb0`: a failed event for `pi_1`
flips the payment to failed and order 5 to "Cancelled"; a failed event
for the unknown `pi_9` answers 200 with the state unchanged. -/
theorem webhook_payment_failed_behavior_witness :
    paymentStatusOf (stripeWebhook payDb0 ⟨"payment_intent.payment_failed", "pi_1", none⟩).2
        "pi_1" = some "failed" ∧
    orderStatusOf (stripeWebhook payDb0 ⟨"payment_intent.payment_failed", "pi_1", none⟩).2 5 =
      (orderStatusOf payDb0 5).map (fun _ => "Cancelled") ∧
    stripeWebhook payDb0 ⟨"payment_intent.payment_failed", "pi_9", none⟩ = (200, payDb0) := by
  have h := (webhook_payment_failed_behavior payDb0
      ⟨"payment_intent.payment_failed", "pi_1", none⟩ rfl).2
    ⟨"pi_1", "pending", none, some 5, some 6⟩ rfl
  exact ⟨h.2.1, h.2.2.1 5 rfl,
    (webhook_payment_failed_behavior payDb0
      ⟨"payment_intent.payment_failed", "pi_9", none⟩ rfl).1 rfl⟩

/-! ## Claim C3 — checkout with an unresolvable product id -/

/-- The id named by a `firstMissingPid` result is an id of the submitted
items that the catalog does not contain. -/
theorem firstMissingPid_spec (catalog : List Nat) (items : List ReqItem) (pid : Nat)
    (h : firstMissingPid catalog items = some pid) :
    catalog.contains pid = false ∧ ∃ it ∈ items, it.product_id = pid := by
  induction items with
  | nil => cases h
  | cons it rest ih =>
    unfold firstMissingPid at h
    cases hc : catalog.contains it.product_id with
    | true =>
      rw [if_pos hc] at h
      obtain ⟨h1, it2, hmem, hpid⟩ := ih h
      exact ⟨h1, it2, List.mem_cons_of_mem _ hmem, hpid⟩
    | false =>
      have hcp : ¬ (catalog.contains it.product_id = true) := by
        rw [hc]; exact Bool.false_ne_true
      rw [if_neg hcp] at h
      cases h
      exact ⟨hc, it, List.mem_cons_self _ _, rfl⟩

/-- The item loop of `CheckoutAPIView.post` on a list of pairwise distinct
product ids containing an unresolvable one: it aborts with
`Product.DoesNotExist` for the first unresolvable id, and every row it
created up to that point belongs to the fresh order. -/
theorem checkoutCreateItems_missing (catalog : List Nat) (oid : Nat) :
    ∀ (items : List ReqItem) (cur : List OrderItemRec) (pid : Nat),
      (items.map (fun it => it.product_id)).Nodup →
      (∀ it ∈ items, ∀ x ∈ cur,
        (x.order == oid && x.product == it.product_id && x.price == 0) = false) →
      firstMissingPid catalog items = some pid →
      ∃ extra,
        checkoutCreateItems catalog oid items cur = .error (.missing pid, cur ++ extra) ∧
        ∀ x ∈ extra, x.order = oid := by
  intro items
  induction items with
  | nil =>
    intro cur pid _ _ hmiss
    cases hmiss
  | cons it rest ih =>
    intro cur pid hnodup hinv hmiss
    unfold firstMissingPid at hmiss
    unfold checkoutCreateItems
    cases hc : catalog.contains it.product_id with
    | false =>
      have hcp : ¬ (catalog.contains it.product_id = true) := by
        rw [hc]; exact Bool.false_ne_true
      rw [if_neg hcp] at hmiss
      rw [if_neg Bool.false_ne_true]
      cases hmiss
      exact ⟨[], by rw [List.append_nil], fun x hx => absurd hx (List.not_mem_nil x)⟩
    | true =>
      rw [if_pos hc] at hmiss
      rw [if_pos rfl]
      have hany : (cur.any fun x =>
          x.order == oid && x.product == it.product_id && x.price == 0) = false :=
        List.any_eq_false.mpr (fun x hx => by
          simp [hinv it (List.mem_cons_self it rest) x hx])
      have hanyp : ¬ ((cur.any fun x =>
          x.order == oid && x.product == it.product_id && x.price == 0) = true) := by
        rw [hany]; exact Bool.false_ne_true
      rw [if_neg hanyp]
      have hnodup2 : (rest.map (fun it2 => it2.product_id)).Nodup :=
        (List.nodup_cons.mp hnodup).2
      have hhead : it.product_id ∉ rest.map (fun it2 => it2.product_id) :=
        (List.nodup_cons.mp hnodup).1
      have hinv2 : ∀ it2 ∈ rest,
          ∀ x ∈ cur ++ [(⟨oid, it.product_id, it.quantity, 0⟩ : OrderItemRec)],
          (x.order == oid && x.product == it2.product_id && x.price == 0) = false := by
        intro it2 hit2 x hx
        rcases List.mem_append.mp hx with hx | hx
        · exact hinv it2 (List.mem_cons_of_mem _ hit2) x hx
        · have hxx := List.mem_singleton.mp hx
          subst hxx
          have hne : it.product_id ≠ it2.product_id :=
            fun he => hhead (he ▸ List.mem_map_of_mem _ hit2)
          simp [hne]
      obtain ⟨extra, heq, hex⟩ := ih (cur ++ [⟨oid, it.product_id, it.quantity, 0⟩])
        pid hnodup2 hinv2 hmiss
      refine ⟨⟨oid, it.product_id, it.quantity, 0⟩ :: extra, ?_, ?_⟩
      · rw [heq, List.append_assoc]
        rfl
      · intro x hx
        rcases List.mem_cons.mp hx with hxx | hx
        · subst hxx; rfl
        · exact hex x hx

/-- A filter that keeps everything. -/
theorem filter_eq_self_of_all_key {A : Type} {p : A → Bool} {l : List A}
    (h : ∀ x ∈ l, p x = true) : l.filter p = l :=
  List.filter_eq_self.mpr h

/-- The item loop of `CheckoutAPIView.post` on any list containing an
unresolvable product id aborts with some error — `Product.DoesNotExist`
or, when a duplicated id collides first, the storage-layer uniqueness
violation — and every row it created up to that point belongs to the
fresh order. -/
theorem checkoutCreateItems_fails (catalog : List Nat) (oid : Nat) :
    ∀ (items : List ReqItem) (cur : List OrderItemRec),
      (∃ it ∈ items, catalog.contains it.product_id = false) →
      ∃ e extra,
        checkoutCreateItems catalog oid items cur = .error (e, cur ++ extra) ∧
        ∀ x ∈ extra, x.order = oid := by
  intro items
  induction items with
  | nil =>
    intro cur h
    obtain ⟨it, hm, _⟩ := h
    cases hm
  | cons it rest ih =>
    intro cur hmiss
    unfold checkoutCreateItems
    cases hc : catalog.contains it.product_id with
    | false =>
      rw [if_neg Bool.false_ne_true]
      exact ⟨.missing it.product_id, [], by rw [List.append_nil],
        fun x hx => absurd hx (List.not_mem_nil x)⟩
    | true =>
      rw [if_pos rfl]
      have hrest : ∃ it2 ∈ rest, catalog.contains it2.product_id = false := by
        obtain ⟨it2, hm, hf⟩ := hmiss
        rcases List.mem_cons.mp hm with hxx | hm2
        · subst hxx
          rw [hc] at hf
          cases hf
        · exact ⟨it2, hm2, hf⟩
      cases hany : (cur.any fun x =>
          x.order == oid && x.product == it.product_id && x.price == 0) with
      | true =>
        rw [if_pos rfl]
        exact ⟨.duplicate it.product_id, [], by rw [List.append_nil],
          fun x hx => absurd hx (List.not_mem_nil x)⟩
      | false =>
        rw [if_neg Bool.false_ne_true]
        obtain ⟨e, extra, heq, hex⟩ :=
          ih (cur ++ [⟨oid, it.product_id, it.quantity, 0⟩]) hrest
        refine ⟨e, ⟨oid, it.product_id, it.quantity, 0⟩ :: extra, ?_, ?_⟩
        · rw [heq, List.append_assoc]
          rfl
        · intro x hx
          rcases List.mem_cons.mp hx with hxx | hx
          · subst hxx; rfl
          · exact hex x hx

/-- Whenever the item loop of `CheckoutAPIView.post` aborts (with either
error kind), the view answers the matching 400 response and the cascade
delete of the fresh order restores the stored state exactly. -/
theorem checkoutPost_error (db : ShopDb) (user : Option Nat)
    (items : List ReqItem) (form : DeliveryForm) (oid : Nat)
    (hfresh_o : ∀ o ∈ db.orders, o.id ≠ oid)
    (hfresh_i : ∀ x ∈ db.orderItems, x.order ≠ oid)
    (hfresh_d : ∀ d ∈ db.deliveries, d.1 ≠ oid)
    (hnotempty : ¬ (items.isEmpty = true))
    (e : ItemErr) (extra : List OrderItemRec)
    (hloop : checkoutCreateItems db.catalog oid items db.orderItems =
      .error (e, db.orderItems ++ extra))
    (hextra : ∀ x ∈ extra, x.order = oid) :
    checkoutPost db user items form oid = (itemErrResponse e, db) := by
  have horders : (db.orders ++ [(⟨oid, user, "Placed"⟩ : OrderRec)]).filter
      (fun o => o.id != oid) = db.orders := by
    rw [List.filter_append]
    rw [filter_eq_self_of_all_key (fun x hx => by simp [hfresh_o x hx])]
    rw [filter_eq_nil_of_no_key (fun x hx => by
      have hxx := List.mem_singleton.mp hx
      subst hxx
      simp)]
    rw [List.append_nil]
  have hitems : (db.orderItems ++ extra).filter (fun it => it.order != oid) =
      db.orderItems := by
    rw [List.filter_append]
    rw [filter_eq_self_of_all_key (fun x hx => by simp [hfresh_i x hx])]
    rw [filter_eq_nil_of_no_key (fun x hx => by simp [hextra x hx])]
    rw [List.append_nil]
  have hdels : db.deliveries.filter (fun d => d.1 != oid) = db.deliveries :=
    filter_eq_self_of_all_key (fun x hx => by simp [hfresh_d x hx])
  unfold checkoutPost
  rw [if_neg hnotempty, hloop]
  cases e with
  | missing pid =>
    dsimp only [itemErrResponse]
    unfold deleteOrderCascade
    dsimp only
    rw [horders, hitems, hdels]
  | duplicate pid =>
    dsimp only [itemErrResponse]
    unfold deleteOrderCascade
    dsimp only
    rw [horders, hitems, hdels]

/-- Claim C3 (amended, for the combined-checkout endpoint
`CheckoutAPIView.post`): whenever the submitted item list contains at
least one unresolvable product id, the call fails — it never answers
created — and the stored state is exactly what it was before the call:
the fresh order is deleted and zero of its items persist (full rollback),
whether the loop aborted on the missing product or, for a duplicated
product id occurring first, on the storage-layer uniqueness violation
caught by the generic handler; and when the submitted product ids are
pairwise distinct, the failure is precisely the 400 error naming the
first unresolvable product id. -/
theorem checkout_missing_product_rolls_back (db : ShopDb) (user : Option Nat)
    (items : List ReqItem) (form : DeliveryForm) (oid : Nat)
    (hfresh_o : ∀ o ∈ db.orders, o.id ≠ oid)
    (hfresh_i : ∀ x ∈ db.orderItems, x.order ≠ oid)
    (hfresh_d : ∀ d ∈ db.deliveries, d.1 ≠ oid)
    (hmiss : ∃ it ∈ items, db.catalog.contains it.product_id = false) :
    ((checkoutPost db user items form oid).2 = db ∧
      ∀ o, (checkoutPost db user items form oid).1 ≠ .created o) ∧
    ((items.map (fun it => it.product_id)).Nodup →
      ∀ pid, firstMissingPid db.catalog items = some pid →
        db.catalog.contains pid = false ∧ (∃ it ∈ items, it.product_id = pid) ∧
        checkoutPost db user items form oid = (.productNotFound pid, db)) := by
  have hne : items ≠ [] := by
    intro h
    subst h
    obtain ⟨it, hm, _⟩ := hmiss
    cases hm
  have hnotempty : ¬ (items.isEmpty = true) := by
    cases items with
    | nil => exact absurd rfl hne
    | cons a l => exact Bool.false_ne_true
  constructor
  · obtain ⟨e, extra, heq, hextra⟩ :=
      checkoutCreateItems_fails db.catalog oid items db.orderItems hmiss
    have hpost := checkoutPost_error db user items form oid
      hfresh_o hfresh_i hfresh_d hnotempty e extra heq hextra
    rw [hpost]
    refine ⟨rfl, ?_⟩
    intro o h
    cases e with
    | missing pid => cases h
    | duplicate pid => cases h
  · intro hnodup pid hfm
    obtain ⟨hpid, hex0⟩ := firstMissingPid_spec db.catalog items pid hfm
    refine ⟨hpid, hex0, ?_⟩
    have hinv : ∀ it ∈ items, ∀ x ∈ db.orderItems,
        (x.order == oid && x.product == it.product_id && x.price == 0) = false := by
      intro it _ x hx
      simp [hfresh_i x hx]
    obtain ⟨extra, heq, hextra⟩ :=
      checkoutCreateItems_missing db.catalog oid items db.orderItems pid hnodup hinv hfm
    exact checkoutPost_error db user items form oid
      hfresh_o hfresh_i hfresh_d hnotempty (.missing pid) extra heq hextra

/-- Witness for the amended C3 theorem: catalog `[1, 2]`, submitted items
`[(1, 1), (9, 2)]` — product 9 is unresolvable, the state is returned
untouched, and (the ids being distinct) the call answers
`productNotFound 9`. -/
theorem checkout_missing_product_rolls_back_witness :
    (checkoutPost ⟨[1, 2], [], [], [], []⟩ none [⟨1, 1⟩, ⟨9, 2⟩]
        ⟨some "123", some "addr"⟩ 42).2 = ⟨[1, 2], [], [], [], []⟩ ∧
    checkoutPost ⟨[1, 2], [], [], [], []⟩ none [⟨1, 1⟩, ⟨9, 2⟩]
        ⟨some "123", some "addr"⟩ 42 =
      (.productNotFound 9, ⟨[1, 2], [], [], [], []⟩) := by
  have h := checkout_missing_product_rolls_back ⟨[1, 2], [], [], [], []⟩ none
    [⟨1, 1⟩, ⟨9, 2⟩] ⟨some "123", some "addr"⟩ 42
    (fun o ho => by cases ho) (fun x hx => by cases hx) (fun d hd => by cases hd)
    ⟨⟨9, 2⟩, by decide, rfl⟩
  exact ⟨h.1.1, (h.2 (by decide) 9 rfl).2.2⟩

/-- Claim C3 refuted as universally stated: the other guest/direct
order-creation path, `OrderAPIView.post` with a direct `items` list
(`OrderSerializer.create`), does NOT fail when an item's product id is
unresolvable — with catalog `[1, 2]` and the single item `(99, 1)` the
call succeeds (201), the order persists, and the unresolvable item is
silently skipped, leaving the order with no items instead of deleting it
and reporting the missing id. -/
theorem order_direct_items_skip_missing :
    (orderPostItems ⟨[1, 2], [], [], [], []⟩ none [⟨99, 1⟩] 42).1 = .created 42 ∧
    (orderPostItems ⟨[1, 2], [], [], [], []⟩ none [⟨99, 1⟩] 42).2.orders =
      [⟨42, none, "Pending"⟩] ∧
    (orderPostItems ⟨[1, 2], [], [], [], []⟩ none [⟨99, 1⟩] 42).2.orderItems = [] := by
  exact ⟨rfl, rfl, rfl⟩

/-! ## Claim C10 — successful combined checkout clears the whole cart -/

/-- Claim C10: whenever the combined checkout succeeds (201, order
created) for an authenticated user, the resulting cart table keeps only
lines of other users: every cart line of this user is deleted, including
lines for products that were not part of the submitted items. -/
theorem checkout_clears_entire_cart (db : ShopDb) (u : Nat) (items : List ReqItem)
    (form : DeliveryForm) (oid : Nat)
    (h : (checkoutPost db (some u) items form oid).1 = .created oid) :
    (checkoutPost db (some u) items form oid).2.carts =
      db.carts.filter (fun c => c.user != u) := by
  rcases hcall : checkoutPost db (some u) items form oid with ⟨res, db2⟩
  rw [hcall] at h
  unfold checkoutPost at hcall
  by_cases hempty : items.isEmpty = true
  · rw [if_pos hempty] at hcall
    cases hcall
    cases h
  · rw [if_neg hempty] at hcall
    cases hloop : checkoutCreateItems db.catalog oid items db.orderItems with
    | error e =>
      rcases e with ⟨err, itemsAtFail⟩
      cases err with
      | missing pid =>
        rw [hloop] at hcall
        dsimp only at hcall
        cases hcall
        cases h
      | duplicate pid =>
        rw [hloop] at hcall
        dsimp only at hcall
        cases hcall
        cases h
    | ok newItems =>
      rw [hloop] at hcall
      dsimp only at hcall
      by_cases hform : deliveryFormValid form = true
      · rw [if_pos hform] at hcall
        cases hcall
        rfl
      · rw [if_neg hform] at hcall
        cases hcall
        cases h

/-- Witness for the C10 theorem: user 7 checks out only product 1; the
cart line for product 3 (same user) is deleted too, while user 8's line
survives. -/
theorem checkout_clears_entire_cart_witness :
    (checkoutPost
        ⟨[1, 2], [⟨7, 1, 2, 100⟩, ⟨7, 3, 1, 50⟩, ⟨8, 1, 1, 60⟩], [], [], []⟩
        (some 7) [⟨1, 2⟩] ⟨some "123", some "addr"⟩ 42).2.carts =
      ([⟨7, 1, 2, 100⟩, ⟨7, 3, 1, 50⟩, ⟨8, 1, 1, 60⟩] : List CartLine).filter
        (fun c => c.user != 7) :=
  checkout_clears_entire_cart
    ⟨[1, 2], [⟨7, 1, 2, 100⟩, ⟨7, 3, 1, 50⟩, ⟨8, 1, 1, 60⟩], [], [], []⟩
    7 [⟨1, 2⟩] ⟨some "123", some "addr"⟩ 42 (by decide)

end NextEcom
